import Mathlib

/-!
Verification of the TempKlean temp-directory cleanup tool (src/TempKlean.py).

The program walks a directory tree to sum file sizes (`get_folder_size`),
empties the top level of a directory while tolerating per-item OS errors
(`clean_temp_folder`), and formats the results (`bytes_to_mb`, `format_size`,
`create_progress_bar`, `display_cleanup_results`).

Modelling conventions:
- A filesystem entry is a file (with a byte size) or a directory (with a list
  of child entries).  OS-level failure possibilities are explicit flags:
  `statFail` on a file means the file vanishes or becomes unreadable between
  enumeration and `os.path.getsize` (the inner `except` at lines 42-43 of the
  source), `removable` means a removal attempt on the entry succeeds.
- `get_folder_size` receives the entry at its path as an `Option` (`none`
  models a path for which `os.path.exists` is false) and an oracle
  `walkLim : Option Nat`: `some k` models an `OSError` raised by the `os.walk`
  iteration after `k` per-file size accumulations (the outer `except` at
  lines 44-45 keeps the partial total), `none` models a walk with no failure.
- `clean_temp_folder` receives the snapshot of children as an
  `Option (List Entry)` (`none` = path missing, line 120), an `enumFail`
  oracle (`Path.iterdir` raising, caught by `except Exception` at line 147),
  and two independent walk oracles for the two `get_folder_size` calls.
- `shutil.rmtree` (line 140) fails when some entry of the subtree is not
  removable; a failed item is modelled as left in place (for a failed file
  unlink this is exact; the possible partial residue of a failed `rmtree` is
  abstracted as the item remaining).
- Python `float` arithmetic in percentages is modelled exactly over `ℚ`,
  and `round(x, 2)` (round-half-to-even) over exact integer division; for
  byte counts below 2^53 the float quotients by powers of two are exact, so
  the model agrees with the source on all realistic inputs.
-/

namespace TempKlean

/-- A filesystem entry: a regular file with its byte size, or a directory
with its children.  `statFail` and `removable` are the explicit OS-failure
oracles described in the header. -/
inductive Entry where
  | file (sz : Nat) (statFail : Bool) (removable : Bool)
  | dir (children : List Entry) (removable : Bool)
deriving Repr

mutual

/-- Whether a removal attempt on this entry succeeds: for a file, its
`removable` flag (`Path.unlink`, line 137); for a directory, `shutil.rmtree`
(line 140) succeeds when the directory and its whole subtree are removable. -/
def removableDeep : Entry → Bool
  | .file _ _ rm => rm
  | .dir cs rm => rm && removableDeepList cs

/-- All entries of the list have removable subtrees. -/
def removableDeepList : List Entry → Bool
  | [] => true
  | e :: es => removableDeep e && removableDeepList es

end

/-- The per-file byte contributions of the files directly inside a child
list, in order: `os.walk` yields the current directory's `filenames` first
(lines 36-43).  A file whose stat fails contributes 0 (lines 40-43). -/
def topFiles : List Entry → List Nat
  | [] => []
  | Entry.file sz sf _ :: es => (if sf then 0 else sz) :: topFiles es
  | Entry.dir _ _ :: es => topFiles es

mutual

/-- The sequence of per-file byte contributions produced by
`os.walk(folder_path)` (lines 36-43) on the tree rooted at this entry, in
walk order: the root directory's own files first, then each subdirectory's
contributions recursively.  `os.walk` on a non-directory yields nothing. -/
def walkContribs : Entry → List Nat
  | .file _ _ _ => []
  | .dir cs _ => topFiles cs ++ walkSubdirs cs

/-- Walk contributions of the subdirectories of a child list, in order. -/
def walkSubdirs : List Entry → List Nat
  | [] => []
  | .file _ _ _ :: es => walkSubdirs es
  | .dir cs rm :: es => walkContribs (.dir cs rm) ++ walkSubdirs es

end

/-- `get_folder_size(folder_path)` (source lines 29-47).  `folder` is the
entry at the path (`none`: `os.path.exists` is false, return 0, lines 32-33).
`walkLim = some k` models the walk raising after `k` file contributions: the
outer `except (OSError, IOError): pass` (lines 44-45) keeps the partial
total accumulated so far. -/
def get_folder_size (folder : Option Entry) (walkLim : Option Nat) : Nat :=
  match folder with
  | none => 0
  | some e =>
    match walkLim with
    | none => (walkContribs e).sum
    | some k => ((walkContribs e).take k).sum

mutual

/-- The byte contribution of one entry to a complete (failure-free at the
walk level) `get_folder_size` run: files contribute their size unless their
stat fails; directories contribute their children's total. -/
def entryContrib : Entry → Nat
  | .file sz sf _ => if sf then 0 else sz
  | .dir cs _ => listContrib cs

/-- Total contribution of a child list. -/
def listContrib : List Entry → Nat
  | [] => 0
  | e :: es => entryContrib e + listContrib es

end

mutual

/-- Modelled from the spec: "the sum of the byte sizes of all regular files
in the directory tree rooted at path" — every file counts its real size,
with no failure policy.  Used as the specification-side value that
`get_folder_size` is compared against. -/
def sumRegularFileSizes : Entry → Nat
  | .file sz _ _ => sz
  | .dir cs _ => sumRegularList cs

/-- Specification-side total of a child list. -/
def sumRegularList : List Entry → Nat
  | [] => 0
  | e :: es => sumRegularFileSizes e + sumRegularList es

end

mutual

/-- No file in this subtree has a failing stat. -/
def allStatOk : Entry → Bool
  | .file _ sf _ => !sf
  | .dir cs _ => allStatOkList cs

/-- No file in any subtree of the list has a failing stat. -/
def allStatOkList : List Entry → Bool
  | [] => true
  | e :: es => allStatOk e && allStatOkList es

end

/-- The counters of the deletion loop (lines 127-145) together with the
children that remain after the loop. -/
structure LoopState where
  files_deleted : Nat
  folders_deleted : Nat
  errors : Nat
  remaining : List Entry
deriving Repr

/-- The deletion loop `for item in items` (lines 134-145): a file child is
unlinked (line 137) when removable, a directory child is removed with its
whole subtree by `shutil.rmtree` (line 140) when removable; a failed removal
raises an OS error caught at lines 142-145, which increments `errors` and
continues.  Each iteration is independent, so the loop is modelled by
structural recursion. -/
def cleanItems : List Entry → LoopState
  | [] => ⟨0, 0, 0, []⟩
  | e :: es =>
    let s := cleanItems es
    match e with
    | .file sz sf rm =>
      if rm then ⟨s.files_deleted + 1, s.folders_deleted, s.errors, s.remaining⟩
      else ⟨s.files_deleted, s.folders_deleted, s.errors + 1, Entry.file sz sf rm :: s.remaining⟩
    | .dir cs rm =>
      if removableDeep (.dir cs rm) then ⟨s.files_deleted, s.folders_deleted + 1, s.errors, s.remaining⟩
      else ⟨s.files_deleted, s.folders_deleted, s.errors + 1, Entry.dir cs rm :: s.remaining⟩

/-- The observable outcome of `clean_temp_folder` (lines 118-159):
`files_deleted`, `folders_deleted` and `errors` are the counters the
function computes and prints (lines 154-157); `space_freed` is its Python
return value `initial_size - final_size` (lines 152, 159), an integer that
is not clamped at zero. -/
structure CleanResult where
  files_deleted : Nat
  folders_deleted : Nat
  errors : Nat
  space_freed : Int
deriving Repr, DecidableEq

/-- `clean_temp_folder(folder_path, location_name)` (lines 118-159).
`folder` is the snapshot of the directory's children (`none`: path missing,
lines 120-122, zero outcome).  `enumFail` models `list(Path(...).iterdir())`
(line 132) raising, caught by the outer `except Exception` (lines 147-149)
which returns 0 with the counters untouched at zero.  `limBefore` and
`limAfter` are the independent walk oracles of the two `get_folder_size`
calls (lines 126 and 151).  Returns the outcome together with the directory
state after the call. -/
def clean_temp_folder (folder : Option (List Entry)) (enumFail : Bool)
    (limBefore limAfter : Option Nat) : CleanResult × Option (List Entry) :=
  match folder with
  | none => (⟨0, 0, 0, 0⟩, none)
  | some cs =>
    let initial_size := get_folder_size (some (Entry.dir cs true)) limBefore
    if enumFail then (⟨0, 0, 0, 0⟩, some cs)
    else
      let s := cleanItems cs
      let final_size := get_folder_size (some (Entry.dir s.remaining true)) limAfter
      (⟨s.files_deleted, s.folders_deleted, s.errors,
        (initial_size : Int) - (final_size : Int)⟩, some s.remaining)

/-- Round-half-to-even of the exact quotient `a / b` (with `b > 0`) to the
nearest integer: the rounding mode of Python `round` applied to the exact
rational value. -/
def roundHalfEvenDiv (a b : Nat) : Nat :=
  let q := a / b
  let r := a % b
  if 2 * r < b then q
  else if 2 * r > b then q + 1
  else if q % 2 = 0 then q else q + 1

/-- `bytes_to_mb(bytes_size)` (lines 49-51): `round(bytes_size / (1024*1024), 2)`.
The rounded value `±c/100` megabytes is represented as a sign (Python keeps
the sign of the input, producing `-0.0` for negative inputs that round to
zero) together with `c`, the magnitude in hundredths of a megabyte:
`round(|n|/2^20, 2) = roundHalfEven(|n|*25 / 2^18) / 100`. -/
def bytes_to_mb (bytes_size : Int) : Bool × Nat :=
  (bytes_size < 0, roundHalfEvenDiv (bytes_size.natAbs * 25) (2 ^ 18))

/-- `bytes_to_gb(bytes_size)` (lines 53-55): `round(bytes_size / (1024*1024*1024), 2)`,
same representation: `roundHalfEven(|n|*25 / 2^28) / 100`. -/
def bytes_to_gb (bytes_size : Int) : Bool × Nat :=
  (bytes_size < 0, roundHalfEvenDiv (bytes_size.natAbs * 25) (2 ^ 28))

/-- The two-digit zero-padded decimal string of `m` (intended for `m < 100`):
the fractional digits printed by the format `:.2f`. -/
def pad2 (m : Nat) : String :=
  if m < 10 then "0" ++ toString m else toString m

/-- Rendering of a signed hundredths value by the f-string `{x:.2f}`
(lines 60, 62): sign, integer part, point, exactly two fractional digits. -/
def renderCenti : Bool × Nat → String
  | (neg, c) => (if neg then "-" else "") ++ toString (c / 100) ++ "." ++ pad2 (c % 100)

/-- `format_size(bytes_size)` (lines 57-62): at or above `1024**3` bytes
render in GB, otherwise in MB, both to two decimal places. -/
def format_size (bytes_size : Int) : String :=
  if bytes_size ≥ 1024 * 1024 * 1024 then renderCenti (bytes_to_gb bytes_size) ++ " GB"
  else renderCenti (bytes_to_mb bytes_size) ++ " MB"

/-- Python `int()` applied to a rational value: truncation toward zero
(line 66 applies it to `width * percentage / 100`). -/
def int_trunc (q : ℚ) : Int :=
  if 0 ≤ q then Int.floor q else -Int.floor (-q)

/-- `filled_width = int(width * percentage / 100)` (line 66). -/
def filled_width (percentage : ℚ) (width : Nat) : Int :=
  int_trunc ((width : ℚ) * percentage / 100)

/-- `empty_width = width - filled_width` (line 67). -/
def empty_width (percentage : ℚ) (width : Nat) : Int :=
  (width : Int) - filled_width percentage width

/-- The glyph segment of the bar built at line 79:
`filled_char * filled_width + empty_char * empty_width`.  Python string
repetition by a non-positive count yields the empty string, hence `Int.toNat`.
The ANSI color codes interleaved at line 79 and the surrounding
`[...] {percentage:.1f}%` decoration are presentation only and carry no
glyphs of either kind. -/
def create_progress_bar_glyphs (percentage : ℚ) (width : Nat)
    (filled_char empty_char : Char) : List Char :=
  List.replicate (filled_width percentage width).toNat filled_char ++
    List.replicate (empty_width percentage width).toNat empty_char

/-- The guarded percentage expressions of `display_cleanup_results`
(lines 172, 179, 186): `(freed / initial * 100) if initial > 0 else 0`.
`initial` comes from `get_folder_size`, hence a natural number; `freed` is a
`clean_temp_folder` return value, hence an integer; the float division is
modelled exactly over `ℚ`. -/
def percentage_of (freed : Int) (initial : Nat) : ℚ :=
  if initial > 0 then (freed : ℚ) / (initial : ℚ) * 100 else 0

/-- `display_cleanup_results` (lines 161-196), reduced to the numeric values
it computes: the user, system and total percentages, the total over the
combined freed and initial amounts (lines 163-164, 186). -/
def display_cleanup_results (user_temp_freed system_temp_freed : Int)
    (user_temp_initial system_temp_initial : Nat) : ℚ × ℚ × ℚ :=
  (percentage_of user_temp_freed user_temp_initial,
   percentage_of system_temp_freed system_temp_initial,
   percentage_of (user_temp_freed + system_temp_freed)
     (user_temp_initial + system_temp_initial))

/-- Number of file children in a snapshot list. -/
def countFiles : List Entry → Nat
  | [] => 0
  | Entry.file _ _ _ :: es => countFiles es + 1
  | Entry.dir _ _ :: es => countFiles es

/-- Number of directory children in a snapshot list. -/
def countDirs : List Entry → Nat
  | [] => 0
  | Entry.file _ _ _ :: es => countDirs es
  | Entry.dir _ _ :: es => countDirs es + 1

/-- `DropsFailingFile e e'` holds when `e'` is `e` with exactly one file
whose stat fails deleted from the child list of some directory at any depth
of the tree: the input family that the inner `except` at lines 42-43 is
about, since `os.walk` visits every directory of the tree and the skip is
applied wherever the failing file sits. -/
inductive DropsFailingFile : Entry → Entry → Prop
  | here (a b : List Entry) (sz : Nat) (rmF rm : Bool) :
      DropsFailingFile (Entry.dir (a ++ Entry.file sz true rmF :: b) rm)
        (Entry.dir (a ++ b) rm)
  | deeper (a b : List Entry) (d d' : Entry) (rm : Bool) :
      DropsFailingFile d d' →
      DropsFailingFile (Entry.dir (a ++ d :: b) rm) (Entry.dir (a ++ d' :: b) rm)

/-! ### Helper lemmas -/

/-- Contributions are additive over concatenation of child lists. -/
theorem listContrib_append : (a b : List Entry) →
    listContrib (a ++ b) = listContrib a + listContrib b
  | [], b => by simp [listContrib]
  | e :: as, b => by
    have ih := listContrib_append as b
    simp [listContrib, ih]
    omega

/-- The walk-ordered contributions of a child list sum to the unordered
per-entry contribution total. -/
theorem walkSum : (cs : List Entry) →
    (topFiles cs).sum + (walkSubdirs cs).sum = listContrib cs
  | [] => by simp [topFiles, walkSubdirs, listContrib]
  | Entry.file sz sf rm :: es => by
    have ih := walkSum es
    simp [topFiles, walkSubdirs, listContrib, entryContrib]
    omega
  | Entry.dir cs2 rm :: es => by
    have ih1 := walkSum cs2
    have ih2 := walkSum es
    simp [topFiles, walkSubdirs, walkContribs, listContrib, entryContrib, List.sum_append]
    omega

/-- When no stat fails, the contribution total is the specification-side sum
of all regular file sizes. -/
theorem listContrib_eq_sumRegular : (cs : List Entry) → allStatOkList cs = true →
    listContrib cs = sumRegularList cs
  | [], _ => by simp [listContrib, sumRegularList]
  | Entry.file sz sf rm :: es, h => by
    simp [allStatOkList, allStatOk] at h
    have ih := listContrib_eq_sumRegular es (by simp [h.2])
    simp [listContrib, sumRegularList, entryContrib, sumRegularFileSizes, h.1, ih]
  | Entry.dir cs2 rm :: es, h => by
    simp [allStatOkList, allStatOk] at h
    have ih1 := listContrib_eq_sumRegular cs2 (by simp [h.1])
    have ih2 := listContrib_eq_sumRegular es (by simp [h.2])
    simp [listContrib, sumRegularList, entryContrib, sumRegularFileSizes, ih1, ih2]

/-- Every loop iteration bumps exactly one of the three counters. -/
theorem cleanItems_partition (cs : List Entry) :
    (cleanItems cs).files_deleted + (cleanItems cs).folders_deleted + (cleanItems cs).errors
      = cs.length := by
  induction cs with
  | nil => rfl
  | cons e es ih =>
    cases e with
    | file sz sf rm => cases rm <;> simp [cleanItems] <;> omega
    | dir cs2 rm =>
      by_cases hrm : removableDeep (Entry.dir cs2 rm) = true
      · simp [cleanItems, hrm]
        omega
      · simp [cleanItems, Bool.of_not_eq_true hrm]
        omega

/-- When every child subtree is removable the loop deletes everything and
counts every child under its kind. -/
theorem cleanItems_all_removable : (cs : List Entry) → removableDeepList cs = true →
    cleanItems cs = ⟨countFiles cs, countDirs cs, 0, []⟩
  | [], _ => rfl
  | Entry.file sz sf rm :: es, h => by
    simp [removableDeepList, removableDeep] at h
    have ih := cleanItems_all_removable es (by simp [h.2])
    simp [cleanItems, ih, h.1, countFiles, countDirs]
  | Entry.dir cs2 rm :: es, h => by
    simp [removableDeepList, removableDeep] at h
    have ih := cleanItems_all_removable es (by simp [h.2])
    simp [cleanItems, removableDeep, ih, h.1.1, h.1.2, countFiles, countDirs]

/-- With a single unremovable child among removable ones, the loop counts
exactly one error, deletes all the other children, and only the failed
child remains. -/
theorem cleanItems_one_bad : (a : List Entry) → (bad : Entry) → (b : List Entry) →
    removableDeep bad = false → removableDeepList a = true → removableDeepList b = true →
    cleanItems (a ++ bad :: b) =
      ⟨countFiles a + countFiles b, countDirs a + countDirs b, 1, [bad]⟩
  | [], bad, b, hbad, _, hb => by
    have ihb := cleanItems_all_removable b hb
    cases bad with
    | file sz sf rm =>
      simp [removableDeep] at hbad
      simp [cleanItems, ihb, hbad, countFiles, countDirs]
    | dir cs2 rm =>
      simp [cleanItems, ihb, hbad, countFiles, countDirs]
  | e :: as, bad, b, hbad, ha, hb => by
    simp [removableDeepList] at ha
    have ih := cleanItems_one_bad as bad b hbad (by simp [ha.2]) hb
    cases e with
    | file sz sf rm =>
      have hrm : rm = true := by simpa [removableDeep] using ha.1
      simp [cleanItems, ih, hrm, countFiles, countDirs, LoopState.mk.injEq]
      omega
    | dir cs2 rm =>
      simp [cleanItems, ih, ha.1, countFiles, countDirs, LoopState.mk.injEq]
      omega

/-- Evaluation of `clean_temp_folder` on an existing directory when snapshot
enumeration succeeds. -/
theorem clean_temp_folder_some (cs : List Entry) (limA limB : Option Nat) :
    clean_temp_folder (some cs) false limA limB =
      (⟨(cleanItems cs).files_deleted, (cleanItems cs).folders_deleted, (cleanItems cs).errors,
        (get_folder_size (some (Entry.dir cs true)) limA : Int)
          - (get_folder_size (some (Entry.dir (cleanItems cs).remaining true)) limB : Int)⟩,
        some (cleanItems cs).remaining) := rfl

/-- A complete (no walk failure) measurement of a directory is the
unordered contribution total of its children. -/
theorem measure_dir_eq_listContrib (cs : List Entry) (rm : Bool) :
    get_folder_size (some (Entry.dir cs rm)) none = listContrib cs := by
  show (walkContribs (Entry.dir cs rm)).sum = listContrib cs
  simp only [walkContribs, List.sum_append]
  exact walkSum cs

/-- Deleting one stat-failing file, at any depth, leaves the contribution
of the tree unchanged: the failing file contributed exactly 0. -/
theorem entryContrib_dropsFailingFile (e e' : Entry) (h : DropsFailingFile e e') :
    entryContrib e = entryContrib e' := by
  induction h with
  | here a b sz rmF rm =>
    simp [entryContrib, listContrib_append, listContrib]
  | deeper a b d d' rm hdd ih =>
    simp [entryContrib, listContrib_append, listContrib, ih]

/-- The fractional part printed for a hundredths value always has exactly
two digits. -/
theorem pad2_length_two : ∀ m : Nat, m < 100 → (pad2 m).length = 2 := by decide

/-! ### Claim theorems -/

/-- C1: for every existing target directory on which the snapshot
enumeration succeeds, `clean_temp_folder` produces an outcome with all four
fields `files_deleted`, `folders_deleted`, `errors` (the printed counters)
and `space_freed` (the return value), where `space_freed` is exactly
`get_folder_size` before the deletion loop minus `get_folder_size` after
it, as integers with no clamping — in particular a negative value is
possible and is returned as-is. -/
theorem clean_returns_outcome_with_unclamped_bytes_freed
    (cs : List Entry) (limA limB : Option Nat) :
    ((clean_temp_folder (some cs) false limA limB).1 =
      CleanResult.mk (cleanItems cs).files_deleted (cleanItems cs).folders_deleted
        (cleanItems cs).errors
        ((get_folder_size (some (Entry.dir cs true)) limA : Int)
          - (get_folder_size (some (Entry.dir (cleanItems cs).remaining true)) limB : Int))) ∧
    ∃ cs2 : List Entry, ∃ lA lB : Option Nat,
      (clean_temp_folder (some cs2) false lA lB).1.space_freed < 0 :=
  ⟨by rw [clean_temp_folder_some],
    ⟨[Entry.file 7 false false], some 0, none, by decide⟩⟩

/-- C2: `clean_temp_folder` targets every entry of the one-time snapshot:
each child lands in exactly one of the three counters (so none is left
untargeted and uncounted), and when every child subtree is removable, every
file child is unlinked and counted in `files_deleted`, every directory
child is recursively removed and counted in `folders_deleted`, and the
directory is left empty. -/
theorem clean_targets_every_snapshot_child (cs : List Entry) (limA limB : Option Nat) :
    ((clean_temp_folder (some cs) false limA limB).1.files_deleted
      + (clean_temp_folder (some cs) false limA limB).1.folders_deleted
      + (clean_temp_folder (some cs) false limA limB).1.errors = cs.length) ∧
    (removableDeepList cs = true →
      (clean_temp_folder (some cs) false limA limB).1.files_deleted = countFiles cs ∧
      (clean_temp_folder (some cs) false limA limB).1.folders_deleted = countDirs cs ∧
      (clean_temp_folder (some cs) false limA limB).1.errors = 0 ∧
      (clean_temp_folder (some cs) false limA limB).2 = some []) := by
  rw [clean_temp_folder_some]
  refine ⟨cleanItems_partition cs, fun h => ?_⟩
  rw [cleanItems_all_removable cs h]
  exact ⟨rfl, rfl, rfl, rfl⟩

/-- C2 witness: a directory with one file and one subdirectory (holding one
file) is fully emptied with both children counted and no errors. -/
theorem clean_targets_every_snapshot_child_witness :
    (clean_temp_folder (some [Entry.file 4 false true, Entry.dir [Entry.file 2 false true] true])
        false none none).1.errors = 0 ∧
    (clean_temp_folder (some [Entry.file 4 false true, Entry.dir [Entry.file 2 false true] true])
        false none none).2 = some [] :=
  ⟨((clean_targets_every_snapshot_child
      [Entry.file 4 false true, Entry.dir [Entry.file 2 false true] true] none none).2
      (by decide)).2.2.1,
    ((clean_targets_every_snapshot_child
      [Entry.file 4 false true, Entry.dir [Entry.file 2 false true] true] none none).2
      (by decide)).2.2.2⟩

/-- C3: `get_folder_size` returns 0 (not an error) on a nonexistent path;
on an existing directory with no stat failures it returns the sum of the
byte sizes of all regular files of the tree; a directory with exactly three
files of sizes 10, 20 and 30 bytes measures 60. -/
theorem measure_sums_regular_file_sizes (lim : Option Nat) (cs : List Entry) (rm : Bool) :
    get_folder_size none lim = 0 ∧
    (allStatOkList cs = true →
      get_folder_size (some (Entry.dir cs rm)) none = sumRegularList cs) ∧
    get_folder_size (some (Entry.dir [Entry.file 10 false true, Entry.file 20 false true,
      Entry.file 30 false true] true)) none = 60 := by
  refine ⟨rfl, fun h => ?_, by decide⟩
  show (walkContribs (Entry.dir cs rm)).sum = sumRegularList cs
  have h1 := walkSum cs
  have h2 := listContrib_eq_sumRegular cs h
  simp only [walkContribs, List.sum_append]
  rw [h1, h2]

/-- C3 witness: the three-file directory measures exactly its
specification-side regular-file total. -/
theorem measure_sums_regular_file_sizes_witness :
    get_folder_size (some (Entry.dir [Entry.file 10 false true, Entry.file 20 false true,
      Entry.file 30 false true] true)) none =
      sumRegularList [Entry.file 10 false true, Entry.file 20 false true,
        Entry.file 30 false true] :=
  (measure_sums_regular_file_sizes none
    [Entry.file 10 false true, Entry.file 20 false true, Entry.file 30 false true] true).2.1
    (by decide)

/-- C4: a single OS-level removal failure is contained: `clean_temp_folder`
still returns an outcome (it is a total function of the modelled state),
`errors` is incremented by exactly 1 for the failed child, every other
removable child of the snapshot is still deleted and counted, and only the
failed child remains. -/
theorem clean_contains_per_item_failure (a b : List Entry) (bad : Entry)
    (limA limB : Option Nat) (hbad : removableDeep bad = false)
    (ha : removableDeepList a = true) (hb : removableDeepList b = true) :
    (clean_temp_folder (some (a ++ bad :: b)) false limA limB).1.errors = 1 ∧
    (clean_temp_folder (some (a ++ bad :: b)) false limA limB).1.files_deleted
      = countFiles a + countFiles b ∧
    (clean_temp_folder (some (a ++ bad :: b)) false limA limB).1.folders_deleted
      = countDirs a + countDirs b ∧
    (clean_temp_folder (some (a ++ bad :: b)) false limA limB).2 = some [bad] := by
  rw [clean_temp_folder_some, cleanItems_one_bad a bad b hbad ha hb]
  exact ⟨rfl, rfl, rfl, rfl⟩

/-- C4 witness: with one locked file between two removable children, the
call completes with exactly one error, both other children deleted, and
only the locked file left. -/
theorem clean_contains_per_item_failure_witness :
    (clean_temp_folder (some [Entry.file 1 false true, Entry.file 9 false false,
        Entry.dir [] true]) false none none).1.errors = 1 ∧
    (clean_temp_folder (some [Entry.file 1 false true, Entry.file 9 false false,
        Entry.dir [] true]) false none none).2 = some [Entry.file 9 false false] :=
  ⟨(clean_contains_per_item_failure [Entry.file 1 false true] [Entry.dir [] true]
      (Entry.file 9 false false) none none (by decide) (by decide) (by decide)).1,
    (clean_contains_per_item_failure [Entry.file 1 false true] [Entry.dir [] true]
      (Entry.file 9 false false) none none (by decide) (by decide) (by decide)).2.2.2⟩

/-- C5: `get_folder_size` is best-effort and total: a file anywhere in the
tree whose stat fails (it vanishes or becomes unreadable between
enumeration and its size lookup) contributes exactly 0 — the tree measures
the same with and without that file, at any depth — while the rest of the
walk is unaffected; and when the top-level walk fails after `k` file
contributions the result is exactly the total accumulated so far (the full
total minus the unvisited suffix), not an error. -/
theorem measure_is_best_effort_total :
    (∀ e e' : Entry, DropsFailingFile e e' →
      get_folder_size (some e) none = get_folder_size (some e') none) ∧
    (∀ e : Entry, ∀ k : Nat,
      get_folder_size (some e) (some k) + ((walkContribs e).drop k).sum =
        get_folder_size (some e) none) := by
  constructor
  · intro e e' h
    have hc := entryContrib_dropsFailingFile e e' h
    cases h with
    | here a b sz rmF rm =>
      rw [measure_dir_eq_listContrib, measure_dir_eq_listContrib]
      simpa [entryContrib] using hc
    | deeper a b d d' rm hdd =>
      rw [measure_dir_eq_listContrib, measure_dir_eq_listContrib]
      simpa [entryContrib] using hc
  · intro e k
    show ((walkContribs e).take k).sum + ((walkContribs e).drop k).sum = (walkContribs e).sum
    rw [← List.sum_append, List.take_append_drop]

/-- C5 witness: a stat-failing 5-byte file nested one directory below the
measured root contributes nothing: the tree measures the same with and
without it, namely 3 (the one readable file). -/
theorem measure_is_best_effort_total_witness :
    (get_folder_size (some (Entry.dir [Entry.dir [Entry.file 5 true true,
        Entry.file 3 false true] true] true)) none =
      get_folder_size (some (Entry.dir [Entry.dir [Entry.file 3 false true] true] true)) none) ∧
    get_folder_size (some (Entry.dir [Entry.dir [Entry.file 5 true true,
        Entry.file 3 false true] true] true)) none = 3 :=
  ⟨measure_is_best_effort_total.1 _ _
      (DropsFailingFile.deeper [] []
        (Entry.dir [Entry.file 5 true true, Entry.file 3 false true] true)
        (Entry.dir [Entry.file 3 false true] true) true
        (DropsFailingFile.here [] [Entry.file 3 false true] 5 true true)),
    by decide⟩

/-- C6: idempotence on an emptied directory: if one `clean_temp_folder` run
removed everything, a second run on the resulting (existing, empty)
directory returns zero counts and `space_freed = 0`, whatever the walk
oracles do. -/
theorem clean_idempotent_on_emptied_directory (cs : List Entry)
    (lA lB lA2 lB2 : Option Nat)
    (h : (clean_temp_folder (some cs) false lA lB).2 = some []) :
    clean_temp_folder ((clean_temp_folder (some cs) false lA lB).2) false lA2 lB2 =
      (⟨0, 0, 0, 0⟩, some []) := by
  rw [h]
  cases lA2 <;> cases lB2 <;>
    simp [clean_temp_folder, get_folder_size, walkContribs, topFiles, walkSubdirs, cleanItems]

/-- C6 witness: cleaning a one-file directory empties it, and the second
run reports all-zero counts and zero bytes freed. -/
theorem clean_idempotent_on_emptied_directory_witness :
    clean_temp_folder ((clean_temp_folder (some [Entry.file 5 false true]) false none none).2)
        false none none = (⟨0, 0, 0, 0⟩, some []) :=
  clean_idempotent_on_emptied_directory [Entry.file 5 false true] none none none none rfl

/-- C7: `format_size` renders below `1024^3` bytes as megabytes and at or
above `1024^3` bytes as gigabytes (1024-based units), always with exactly
two decimal places; `format_size(500*1024*1024) = "500.00 MB"` and
`format_size(2*1024*1024*1024) = "2.00 GB"`. -/
theorem format_size_unit_selection (n : Int) :
    format_size (500 * 1024 * 1024) = "500.00 MB" ∧
    format_size (2 * 1024 * 1024 * 1024) = "2.00 GB" ∧
    (n < 1024 * 1024 * 1024 → format_size n = renderCenti (bytes_to_mb n) ++ " MB") ∧
    (1024 * 1024 * 1024 ≤ n → format_size n = renderCenti (bytes_to_gb n) ++ " GB") ∧
    (∀ neg : Bool, ∀ c : Nat, ∃ whole frac : String,
      renderCenti (neg, c) = (if neg then "-" else "") ++ whole ++ "." ++ frac ∧
        frac.length = 2) := by
  refine ⟨rfl, rfl, fun h => ?_, fun h => ?_, fun neg c => ?_⟩
  · simp only [format_size]
    rw [if_neg (by omega)]
  · simp only [format_size]
    rw [if_pos (by omega)]
  · exact ⟨toString (c / 100), pad2 (c % 100), rfl,
      pad2_length_two (c % 100) (Nat.mod_lt c (by norm_num))⟩

/-- C7 witness: a sub-GiB count takes the MB branch and a multi-GiB count
takes the GB branch. -/
theorem format_size_unit_selection_witness :
    format_size 1000000 = renderCenti (bytes_to_mb 1000000) ++ " MB" ∧
    format_size (3 * 1024 * 1024 * 1024) =
      renderCenti (bytes_to_gb (3 * 1024 * 1024 * 1024)) ++ " GB" :=
  ⟨(format_size_unit_selection 1000000).2.2.1 (by norm_num),
    (format_size_unit_selection (3 * 1024 * 1024 * 1024)).2.2.2.1 (by norm_num)⟩

/-- C8: for every percentage in `[0, 100]` and every width, the filled
segment has exactly `⌊width * percentage / 100⌋` glyphs (the `int()`
truncation coincides with the floor there), the rest of the bar is the
empty glyph, the whole bar is `width` glyphs long, and at width 10 the
percentages 0, 50 and 100 give 0, 5 and 10 filled glyphs. -/
theorem progress_bar_filled_segment (p : ℚ) (w : Nat) (fc ec : Char)
    (h0 : 0 ≤ p) (h1 : p ≤ 100) :
    filled_width p w = Int.floor ((w : ℚ) * p / 100) ∧
    (Int.floor ((w : ℚ) * p / 100)).toNat ≤ w ∧
    create_progress_bar_glyphs p w fc ec =
      List.replicate (Int.floor ((w : ℚ) * p / 100)).toNat fc ++
        List.replicate (w - (Int.floor ((w : ℚ) * p / 100)).toNat) ec ∧
    (create_progress_bar_glyphs p w fc ec).length = w ∧
    (filled_width 0 10 = 0 ∧ filled_width 50 10 = 5 ∧ filled_width 100 10 = 10) := by
  have hq : (0 : ℚ) ≤ (w : ℚ) * p / 100 := by positivity
  have hfw : filled_width p w = Int.floor ((w : ℚ) * p / 100) := by
    simp only [filled_width, int_trunc]
    rw [if_pos hq]
  have hle : ((w : ℚ) * p / 100) ≤ (w : ℚ) := by
    rw [div_le_iff₀ (by norm_num : (0 : ℚ) < 100)]
    exact mul_le_mul_of_nonneg_left h1 (by positivity)
  have hfl : Int.floor ((w : ℚ) * p / 100) ≤ (w : Int) := by
    have := Int.floor_le_floor hle
    simpa using this
  have hfl0 : 0 ≤ Int.floor ((w : ℚ) * p / 100) := Int.floor_nonneg.mpr hq
  have htn : (Int.floor ((w : ℚ) * p / 100)).toNat ≤ w := Int.toNat_le.mpr hfl
  have hew : (empty_width p w).toNat = w - (Int.floor ((w : ℚ) * p / 100)).toNat := by
    simp only [empty_width, hfw]
    omega
  refine ⟨hfw, htn, ?_, ?_, by norm_num [filled_width, int_trunc],
    by norm_num [filled_width, int_trunc], by norm_num [filled_width, int_trunc]⟩
  · simp only [create_progress_bar_glyphs, hfw, hew]
  · simp only [create_progress_bar_glyphs, List.length_append, List.length_replicate, hfw, hew]
    omega

/-- C8 witness: at width 10 and percentage 50 the filled segment is the
floor value 5 and the bar has 10 glyphs. -/
theorem progress_bar_filled_segment_witness :
    filled_width 50 10 = Int.floor ((10 : ℚ) * 50 / 100) ∧
    (create_progress_bar_glyphs 50 10 'x' 'o').length = 10 :=
  ⟨(progress_bar_filled_segment 50 10 'x' 'o' (by norm_num) (by norm_num)).1,
    (progress_bar_filled_segment 50 10 'x' 'o' (by norm_num) (by norm_num)).2.2.2.1⟩

/-- C9: each summary percentage is `freed / initial * 100` only when the
initial size is nonzero and is taken to be 0 when it is 0, so every
division performed has a nonzero divisor — including the aggregate total
bar over the combined freed and initial amounts. -/
theorem summary_percentage_no_div_by_zero (f : Int) (i : Nat) (uf sf : Int) (ui si : Nat) :
    (i = 0 → percentage_of f i = 0) ∧
    (i ≠ 0 → ((i : ℚ) ≠ 0 ∧ percentage_of f i = (f : ℚ) / (i : ℚ) * 100)) ∧
    display_cleanup_results uf sf ui si =
      (percentage_of uf ui, percentage_of sf si, percentage_of (uf + sf) (ui + si)) := by
  refine ⟨fun h => ?_, fun h => ⟨?_, ?_⟩, rfl⟩
  · simp [percentage_of, h]
  · exact_mod_cast h
  · simp only [percentage_of]
    rw [if_pos (Nat.pos_of_ne_zero h)]

/-- C9 witness: a zero initial size yields percentage 0 with no division,
and a nonzero initial size yields the ordinary ratio. -/
theorem summary_percentage_no_div_by_zero_witness :
    percentage_of 3 0 = 0 ∧ percentage_of 3 2 = (3 : ℚ) / 2 * 100 :=
  ⟨(summary_percentage_no_div_by_zero 3 0 3 3 0 0).1 rfl,
    ((summary_percentage_no_div_by_zero 3 2 3 3 0 0).2.1 (by norm_num)).2⟩

/-- C10: `format_size` is total on all integers; every negative byte count
falls in the megabyte branch and is rendered as a minus sign followed by a
two-decimal megabyte amount — negative values are neither clamped to zero
nor rejected, e.g. `format_size(-(500*1024*1024)) = "-500.00 MB"`. -/
theorem format_size_negative_renders_negative_mb (n : Int) (hn : n < 0) :
    (format_size n =
      "-" ++ toString ((bytes_to_mb n).2 / 100) ++ "." ++ pad2 ((bytes_to_mb n).2 % 100)
        ++ " MB") ∧
    format_size (-(500 * 1024 * 1024)) = "-500.00 MB" := by
  constructor
  · have hneg : decide (n < 0) = true := decide_eq_true hn
    simp only [format_size]
    rw [if_neg (by omega)]
    simp [renderCenti, bytes_to_mb, hneg]
  · rfl

/-- C10 witness: one negative byte rounds to the negative-signed zero
amount `-0.00 MB`, still in the megabyte branch and not clamped. -/
theorem format_size_negative_renders_negative_mb_witness :
    format_size (-1) = "-" ++ toString ((bytes_to_mb (-1)).2 / 100) ++ "."
      ++ pad2 ((bytes_to_mb (-1)).2 % 100) ++ " MB" :=
  (format_size_negative_renders_negative_mb (-1) (by norm_num)).1

end TempKlean
